import Mathlib

/-!
# Verification of the YFPY Yahoo Fantasy Sports query layer

This file gives a shallow embedding of `yfpy/query.py` — the
`YahooFantasySportsQuery` class: its `get_response` retry/backoff state
machine, the key-path navigation loop of `query`, the plural-key
flattening step, the league-player pagination orchestrator
`get_league_players`, the league-key cache accessor `get_league_key`,
and the list-normalisation of `get_user_leagues_by_game_key` — and
proves or refutes the specification claims about them.

JSON values are modelled by the inductive `YJson`; Python's exception
taxonomy (as exercised by this module) by `PyErr`.  The external HTTP
transport is modelled as a stream of responses indexed by fetch number,
and side effects (fetches, backoff sleeps, re-authentication) are
recorded in an explicit event trace.

Helpers that live in `yfpy/utils.py` (`reformat_json_list`,
`unpack_data`, `jsonify_data`) are not part of the excerpted source and
are modelled from the specification; their doc comments say so.
-/

/-- A JSON value as decoded by `response.json()` in `query.py`.  Python's
`None` (both JSON `null` and a `dict.get` miss) is `null`; numbers are
modelled as integers, which covers every field the claims touch. -/
inductive YJson where
  | null : YJson
  | bool (b : Bool) : YJson
  | num (n : Int) : YJson
  | str (s : String) : YJson
  | arr (xs : List YJson) : YJson
  | obj (fs : List (String × YJson)) : YJson
deriving Inhabited

namespace YJson

/-- Python truthiness (`if raw_response_data:`): `None`, `False`, `0`,
`""`, `[]`, and `\x7b\x7d` are falsy, everything else truthy. -/
def truthy : YJson → Bool
  | .null => false
  | .bool b => b
  | .num n => n != 0
  | .str s => s != ""
  | .arr xs => !xs.isEmpty
  | .obj fs => !fs.isEmpty

/-- `isinstance(x, list)`. -/
def isList : YJson → Bool
  | .arr _ => true
  | _ => false

/-- `isinstance(x, dict)`. -/
def isDict : YJson → Bool
  | .obj _ => true
  | _ => false

end YJson

/-- First binding of a key in a Python dict modelled as an association
list (insertion order preserved, keys unique in well-formed dicts). -/
def objGet (fs : List (String × YJson)) (k : String) : Option YJson :=
  match fs with
  | [] => none
  | (k', v) :: rest => if k' == k then some v else objGet rest k

/-- One component of a `data_key_list`: either a plain key string or a
two-element list of sibling keys (`["team_points", "team_projected_points"]`). -/
inductive PathKey where
  | str (s : String)
  | pair (k0 k1 : String)
deriving DecidableEq, Repr

/-- The Python exceptions `query.py` can raise (directly or by calling a
method on an unsuitable value).  `dataNotFound` is
`YahooFantasySportsDataNotFound` with its `payload` (the key-path list,
when given), `url` and `message` attributes; `httpError` is
`requests.exceptions.HTTPError` for the given status code (999 is
Yahoo's rate-limit pseudo-status). -/
inductive PyErr where
  | dataNotFound (payload : Option (List PathKey)) (url : String) (msg : String)
  | httpError (status : Nat)
  | keyError
  | attributeError
  | typeError
  | indexError
  | jsonDecodeError
deriving DecidableEq, Repr

/-- `d[k]` on a Python value: dict subscription raises `KeyError` on a
missing key, and subscription of `None`/numbers/strings with a string
key raises `TypeError`. -/
def pySubscript (v : YJson) (k : String) : Except PyErr YJson :=
  match v with
  | .obj fs =>
      match objGet fs k with
      | some r => .ok r
      | none => .error .keyError
  | _ => .error .typeError

/-- `d.get(k)` on a Python value: defined only for dicts (returning
`None` on a miss); any other receiver raises `AttributeError`. -/
def pyGet (v : YJson) (k : String) : Except PyErr YJson :=
  match v with
  | .obj fs => .ok ((objGet fs k).getD .null)
  | _ => .error .attributeError

/-- Update a key in an association-list dict, preserving insertion order
(Python dict assignment semantics). -/
def upsert (fs : List (String × YJson)) (k : String) (v : YJson) : List (String × YJson) :=
  match fs with
  | [] => [(k, v)]
  | (k', v') :: rest => if k' == k then (k', v) :: rest else (k', v') :: upsert rest k v

/-- Modelled from the spec: `reformat_json_list` (from `yfpy/utils.py`,
not part of the excerpted source) reformats one list level of the raw
response so the Navigator can look sibling keys up "within the same
reformatted index": the list's mapping elements are merged into a single
mapping keyed by field name, a later binding overriding an earlier one
and null bindings being dropped ("using the last non-empty key's
value"); non-mapping elements contribute nothing. -/
def reformat_json_list (xs : List YJson) : List (String × YJson) :=
  xs.foldl
    (fun acc x =>
      match x with
      | .obj fs =>
          fs.foldl
            (fun acc2 p =>
              match p.2 with
              | .null => acc2
              | v => upsert acc2 p.1 v)
            acc
      | _ => acc)
    []

/-- The key of a single-key wrapper mapping (`\x7b"team": ...\x7d`), if the
value is one. -/
def wrapperKey : YJson → Option String
  | .obj [(k, _)] => some k
  | _ => none

/-- The fields of a mapping, `[]` for any other value. -/
def fieldsOf : YJson → List (String × YJson)
  | .obj fs => fs
  | _ => []

/-- All strings in the list equal (used for the repeated-wrapper-key test). -/
def allSameKey : List String → Bool
  | [] => true
  | k :: ks => ks.all (fun k' => k' == k)

/-- Modelled from the spec: the "list vs object" disambiguation rule —
a non-empty mapping whose keys are the consecutive numeric strings
starting at "0" is a pseudo-list; a mapping missing "0" or with
non-consecutive keys is a plain object. -/
def isNumericIndexKeys (fs : List (String × YJson)) : Bool :=
  !fs.isEmpty && decide (fs.map Prod.fst = (List.range fs.length).map Nat.repr)

mutual

/-- Modelled from the spec: `unpack_data` (from `yfpy/utils.py`, not part
of the excerpted source) canonicalizes raw Yahoo-shaped JSON.  A
numeric-string-indexed pseudo-mapping becomes a sequence; a sequence of
single-key wrapper mappings sharing one key stays a sequence of (now
recursively unpacked) wrappers — the Navigator's plural-key flattening
step and the callers' sort lambdas in `query.py` both consume the
wrappers, so they must survive unpacking; a sequence of single-key
wrappers with distinct sibling keys (the dual-key extraction shape) is
merged into one mapping "from each requested key to its unpacked
value"; scalars pass through. -/
def unpack_data : YJson → YJson
  | .arr xs =>
      let ys := unpackList xs
      if ys.all (fun y => (wrapperKey y).isSome) then
        if allSameKey (ys.filterMap wrapperKey) then .arr ys
        else .obj (ys.foldr (fun y acc => fieldsOf y ++ acc) [])
      else .arr ys
  | .obj fs => if isNumericIndexKeys fs then .arr (unpackVals fs) else .obj (unpackFields fs)
  | v => v

/-- Pointwise `unpack_data` over a sequence. -/
def unpackList : List YJson → List YJson
  | [] => []
  | x :: xs => unpack_data x :: unpackList xs

/-- Pointwise `unpack_data` over a mapping's values. -/
def unpackFields : List (String × YJson) → List (String × YJson)
  | [] => []
  | (k, v) :: fs => (k, unpack_data v) :: unpackFields fs

/-- The unpacked values of a numeric pseudo-list, in key order. -/
def unpackVals : List (String × YJson) → List YJson
  | [] => []
  | (_, v) :: fs => unpack_data v :: unpackVals fs

end

mutual

/-- Modelled from the spec: `jsonify_data` (from `yfpy/utils.py`, not
part of the excerpted source) serializes the result when the query
object was constructed with `all_output_as_json_str=True`.  Out of scope
for the spec proper; modelled as a plain JSON rendering. -/
def jsonify_data : YJson → String
  | .null => "null"
  | .bool b => if b then "true" else "false"
  | .num n => toString n
  | .str s => "\"" ++ s ++ "\""
  | .arr xs => "[" ++ jsonifyArr xs ++ "]"
  | .obj fs => "\x7b" ++ jsonifyObj fs ++ "\x7d"

/-- Comma-separated rendering of a sequence. -/
def jsonifyArr : List YJson → String
  | [] => ""
  | [x] => jsonify_data x
  | x :: xs => jsonify_data x ++ ", " ++ jsonifyArr xs

/-- Comma-separated rendering of a mapping. -/
def jsonifyObj : List (String × YJson) → String
  | [] => ""
  | [(k, v)] => "\"" ++ k ++ "\": " ++ jsonify_data v
  | (k, v) :: fs => "\"" ++ k ++ "\": " ++ jsonify_data v ++ ", " ++ jsonifyObj fs

end

/-- Rendering of a path component for the `DataNotFound` message text. -/
def PathKey.render : PathKey → String
  | .str s => s
  | .pair a b => "[" ++ a ++ ", " ++ b ++ "]"

/-- Rendering of a `data_key_list` for the `DataNotFound` message text. -/
def renderPath (ks : List PathKey) : String :=
  "[" ++ String.intercalate ", " (ks.map PathKey.render) ++ "]"

/-- One iteration of the drill-down loop in `query` (lines 239-256 of
`query.py`): a list level is reformatted and subscripted (`KeyError` on
a miss), a mapping level uses `.get` for a plain key (yielding `None` on
a miss) but subscription for a dual-key component, and any other level —
in particular the `None` produced by a previous miss — raises
`AttributeError` (no `.get`) or `TypeError` (not subscriptable). -/
def drillStep (raw : YJson) (k : PathKey) : Except PyErr YJson :=
  match raw with
  | .arr xs =>
      let m := reformat_json_list xs
      match k with
      | .pair k0 k1 =>
          match pySubscript (.obj m) k0 with
          | .error e => .error e
          | .ok v0 =>
              match pySubscript (.obj m) k1 with
              | .error e => .error e
              | .ok v1 => .ok (.arr [.obj [(k0, v0)], .obj [(k1, v1)]])
      | .str s => pySubscript (.obj m) s
  | .obj fs =>
      match k with
      | .pair k0 k1 =>
          match pySubscript (.obj fs) k0 with
          | .error e => .error e
          | .ok v0 =>
              match pySubscript (.obj fs) k1 with
              | .error e => .error e
              | .ok v1 => .ok (.arr [.obj [(k0, v0)], .obj [(k1, v1)]])
      | .str s => pyGet (.obj fs) s
  | _ =>
      match k with
      | .pair _ _ => .error .typeError
      | .str _ => .error .attributeError

/-- The full drill-down loop of `query` over the `data_key_list`. -/
def drill (raw : YJson) (ks : List PathKey) : Except PyErr YJson :=
  match ks with
  | [] => .ok raw
  | k :: rest =>
      match drillStep raw k with
      | .ok r => drill r rest
      | .error e => .error e

/-- An HTTP response as seen by `get_response`: status code, decoded
JSON body (`none` models a `json.JSONDecodeError` from
`response.json()`), and the effective `response.url`. -/
structure HttpResp where
  status : Nat
  body : Option YJson
  respUrl : String

/-- An observable side effect of the transport layer: an HTTP fetch of a
URL, the `_authenticate()` re-authentication call, or a
`time.sleep(0.3 * units)` backoff. -/
inductive Ev where
  | fetch (url : String)
  | auth
  | sleep (units : Nat)
deriving DecidableEq, Repr

/-- Result of a `get_response` call: the outcome, the event trace, the
final `self._retries` and `self._backoff` instance state, and the index
of the next unconsumed response in the fetch stream. -/
structure GROut where
  res : Except PyErr HttpResp
  evs : List Ev
  retries : Nat
  backoff : Nat
  next : Nat

/-- Message text of the envelope-extraction failure in `get_response`. -/
def noDataMsg (url fcField : String) : String :=
  "No data found at URL " ++ url ++ " when attempting extraction from field: " ++ fcField

/-- Message text of the error-payload failure in `get_response`. -/
def errPayloadMsg (url desc : String) : String :=
  "Attempt to retrieve data at URL " ++ url ++ " failed with error: " ++ desc

/-- Rendering of the error payload description for the message text. -/
def descText : YJson → String
  | .str s => s
  | v => jsonify_data v

/-- The tail of `get_response` (lines 196-211 of `query.py`): extract
the `fantasy_content` envelope field from `response_json` and return the
response if it is truthy, else raise `DataNotFound` (no payload) with
`response.url`.  NOTE: after a successful retry the source still uses
the failed attempt's `response_json` here — only `response` itself is
replaced by the recursive call's result — so `rjson` and `resp` may come
from different fetches. -/
def getResponseTail (rjson : YJson) (resp : HttpResp) (fcField : String)
    (evs : List Ev) (retries backoff next : Nat) : GROut :=
  match pyGet rjson fcField with
  | .error e => ⟨.error e, evs, retries, backoff, next⟩
  | .ok raw =>
      if raw.truthy then ⟨.ok resp, evs, retries, backoff, next⟩
      else ⟨.error (.dataNotFound none resp.respUrl (noDataMsg resp.respUrl fcField)), evs,
            retries, backoff, next⟩

/-- `YahooFantasySportsQuery.get_response` (lines 142-211 of
`query.py`).  `fetch` is the external transport (`self.oauth.session.get`)
as a stream of responses indexed by fetch number; `retries` and
`backoff` are the `self._retries` / `self._backoff` instance fields
(mutated by the retry handler, never reset); `idx` is the index of the
next response in the stream.  Status 999 raises `HTTPError` before
anything else; status 401 triggers the `_authenticate()` side effect and
then flows on normally; a non-2xx response with an `"error"` payload
raises `DataNotFound` (fatal — the handler only catches `HTTPError`);
any other non-2xx raises `HTTPError` via `raise_for_status`, which the
handler retries with linear backoff while `self._retries > 0` and
otherwise re-raises fatally. -/
def getResponse (fetch : Nat → HttpResp) (fcField url : String) :
    (retries : Nat) → (backoff : Nat) → (idx : Nat) → GROut
  | retries, backoff, idx =>
    let resp := fetch idx
    let idx1 := idx + 1
    let evs0 : List Ev := [.fetch url]
    if resp.status == 999 then
      -- rate limited: immediate HTTPError, outside the try block
      ⟨.error (.httpError 999), evs0, retries, backoff, idx1⟩
    else
      let evs1 := if resp.status == 401 then evs0 ++ [Ev.auth] else evs0
      match resp.body with
      | none =>
          -- json.JSONDecodeError: `response.raise_for_status()` runs inside
          -- the except clause, so a non-2xx status here is fatal (nothing
          -- catches the HTTPError); a 2xx continues with an empty
          -- response_json and fails the envelope extraction below
          if resp.status / 100 == 2 then
            ⟨.error (.dataNotFound none resp.respUrl (noDataMsg resp.respUrl fcField)), evs1,
             retries, backoff, idx1⟩
          else ⟨.error (.httpError resp.status), evs1, retries, backoff, idx1⟩
      | some rjson =>
          if resp.status / 100 != 2 then
            match pyGet rjson "error" with
            | .error e => ⟨.error e, evs1, retries, backoff, idx1⟩
            | .ok errVal =>
                if errVal.truthy then
                  match pyGet errVal "description" with
                  | .error e => ⟨.error e, evs1, retries, backoff, idx1⟩
                  | .ok desc =>
                      ⟨.error (.dataNotFound none resp.respUrl
                          (errPayloadMsg resp.respUrl (descText desc))), evs1,
                       retries, backoff, idx1⟩
                else
                  -- raise_for_status → HTTPError → retry handler
                  match retries with
                  | r + 1 =>
                      let b1 := backoff + 1
                      let evs2 := evs1 ++ [Ev.sleep b1]
                      let out := getResponse fetch fcField url r b1 idx1
                      match out.res with
                      | .error e => ⟨.error e, evs2 ++ out.evs, out.retries, out.backoff, out.next⟩
                      | .ok resp2 =>
                          -- successful retry: the source falls through to the
                          -- envelope check with the STALE response_json
                          getResponseTail rjson resp2 fcField (evs2 ++ out.evs)
                            out.retries out.backoff out.next
                  | 0 =>
                      ⟨.error (.httpError resp.status), evs1, 0, backoff, idx1⟩
          else
            getResponseTail rjson resp fcField evs1 retries backoff idx1

/-- The per-call configuration and mutable instance state of
`YahooFantasySportsQuery` that `query` reads. -/
structure QueryCtx where
  offline : Bool
  allOutputAsJsonStr : Bool
  fantasyContentDataField : String
  retries : Nat
  backoff : Nat

/-- Result of a `query` call: the outcome (`.ok none` models the `None`
return of offline mode), the transport event trace, and the
`self.executed_queries` entries appended (url, status code). -/
structure QueryOut where
  res : Except PyErr (Option YJson)
  evs : List Ev
  executed : List (String × Nat)

/-- Stable insert for the embedding of Python's stable `sorted`. -/
def pyInsert (key : YJson → Int) (x : YJson) : List YJson → List YJson
  | [] => [x]
  | y :: ys => if key x ≤ key y then x :: y :: ys else y :: pyInsert key x ys

/-- Stable insertion sort by key (the embedding of
`sorted(query_data, key=sort_function)` on a list). -/
def pySortList (key : YJson → Int) : List YJson → List YJson
  | [] => []
  | x :: xs => pyInsert key x (pySortList key xs)

/-- `sorted(v, key=...)` on a Python value: lists sort their elements, a
string sorts its characters (as one-character strings), anything else is
not iterable and raises `TypeError`. -/
def pySorted (key : YJson → Int) (v : YJson) : Except PyErr YJson :=
  match v with
  | .arr xs => .ok (.arr (pySortList key xs))
  | .str s => .ok (.arr (pySortList key (s.data.map (fun c => YJson.str (String.mk [c])))))
  | _ => .error .typeError

/-- `last_data_key.endswith("s")` (the specific call made at line 286). -/
def pyEndsWithS (s : String) : Bool :=
  s.data.getLast? == some 's'

/-- `last_data_key[:-1]`. -/
def pyDropLast (s : String) : String :=
  String.mk s.data.dropLast

/-- `[el[k] for el in xs]`: dict subscription of every element, raising
the first element's error if any. -/
def subscriptEach (k : String) : List YJson → Except PyErr (List YJson)
  | [] => .ok []
  | x :: xs =>
      match pySubscript x k with
      | .error e => .error e
      | .ok v =>
          match subscriptEach k xs with
          | .error e => .error e
          | .ok rest => .ok (v :: rest)

/-- The flattening step of `query` (lines 283-287 of `query.py`): when
the (post-cast, post-sort) data is a list, look at
`data_key_list[-1]` (`IndexError` on an empty key list, and a
two-key list component has no `.endswith`, hence `AttributeError`); if
it is a string ending in "s", replace every element by its value under
the singular key. -/
def flattenPlural (qd : YJson) (dataKeyList : List PathKey) : Except PyErr YJson :=
  match qd with
  | .arr xs =>
      match dataKeyList.getLast? with
      | none => .error .indexError
      | some (.pair _ _) => .error .attributeError
      | some (.str k) =>
          if pyEndsWithS k then
            match subscriptEach (pyDropLast k) xs with
            | .error e => .error e
            | .ok ys => .ok (.arr ys)
          else .ok (.arr xs)
  | v => .ok v

/-- Message text of the extraction failure in `query` (line 261). -/
def extractFailMsg (dataKeyList : List PathKey) : String :=
  "No data found when attempting extraction from fields: " ++ renderPath dataKeyList

/-- `YahooFantasySportsQuery.query` (lines 214-295 of `query.py`).
Offline mode logs an error and returns `None` without touching the
transport.  Otherwise: `get_response`, re-extraction of the
`fantasy_content` envelope from the returned response's body, the
drill-down loop over `data_key_list`, the truthiness check raising
`DataNotFound` with the key-path payload and `response.url`, unpacking,
the optional `data_type_class` cast, the optional sort (skipped for
dicts), the plural-key flattening, and the optional JSON-string
serialization. -/
def query (ctx : QueryCtx) (fetch : Nat → HttpResp) (url : String)
    (dataKeyList : List PathKey) (dataTypeClass : Option (YJson → YJson))
    (sortKey : Option (YJson → Int)) : QueryOut :=
  if ctx.offline then ⟨.ok none, [], []⟩
  else
    let gr := getResponse fetch ctx.fantasyContentDataField url ctx.retries ctx.backoff 0
    match gr.res with
    | .error e => ⟨.error e, gr.evs, []⟩
    | .ok resp =>
        match resp.body with
        | none => ⟨.error .jsonDecodeError, gr.evs, []⟩
        | some bodyJson =>
            match pyGet bodyJson ctx.fantasyContentDataField with
            | .error e => ⟨.error e, gr.evs, []⟩
            | .ok raw0 =>
                match drill raw0 dataKeyList with
                | .error e => ⟨.error e, gr.evs, []⟩
                | .ok raw =>
                    if raw.truthy then
                      let executed := [(resp.respUrl, resp.status)]
                      let unpacked := unpack_data raw
                      let qd :=
                        match dataTypeClass with
                        | some cast => cast unpacked
                        | none => unpacked
                      let sortedStep : Except PyErr YJson :=
                        match sortKey with
                        | some key => if qd.isDict then .ok qd else pySorted key qd
                        | none => .ok qd
                      match sortedStep with
                      | .error e => ⟨.error e, gr.evs, executed⟩
                      | .ok qd1 =>
                          match flattenPlural qd1 dataKeyList with
                          | .error e => ⟨.error e, gr.evs, executed⟩
                          | .ok qd2 =>
                              if ctx.allOutputAsJsonStr then
                                ⟨.ok (some (.str (jsonify_data qd2))), gr.evs, executed⟩
                              else ⟨.ok (some qd2), gr.evs, executed⟩
                    else
                      ⟨.error (.dataNotFound (some dataKeyList) resp.respUrl
                          (extractFailMsg dataKeyList)), gr.evs, []⟩

/-- Python truthiness of an optional string attribute
(`if not self.league_key:` — `None` and `""` are falsy). -/
def pyTruthyOptStr : Option String → Bool
  | none => false
  | some s => s != ""

/-- Python truthiness of an optional integer argument
(`if season:` — `None` and `0` are falsy). -/
def pyTruthyOptInt : Option Int → Bool
  | none => false
  | some n => n != 0

/-- The query-context fields `get_league_key` reads: the cached
`self.league_key`, `self.league_id` and `self.game_id`. -/
structure LeagueKeyCtx where
  leagueKey : Option String
  leagueId : String
  gameId : Option Int
deriving DecidableEq, Repr

/-- Which resolution sub-query `get_league_key` issued:
`get_game_key_by_season`, `get_game_metadata_by_game_id`, or
`get_current_game_metadata`. -/
inductive ResolveEv where
  | bySeason (season : Int)
  | byGameId (gameId : Int)
  | currentGame
deriving DecidableEq, Repr

/-- `YahooFantasySportsQuery.get_league_key` (lines 726-753 of
`query.py`).  The three game-key resolution sub-queries are external
network calls here abstracted as the oracles `gameKeyBySeason`,
`gameKeyByGameId` and `currentGameKey`; the returned context is the
(possibly updated) query-context state and the event list records which
resolver ran. -/
def get_league_key (ctx : LeagueKeyCtx) (season : Option Int)
    (gameKeyBySeason : Int → String) (gameKeyByGameId : Int → String)
    (currentGameKey : String) : String × LeagueKeyCtx × List ResolveEv :=
  if pyTruthyOptStr ctx.leagueKey then
    (ctx.leagueKey.getD "", ctx, [])
  else if pyTruthyOptInt season then
    (gameKeyBySeason (season.getD 0) ++ ".l." ++ ctx.leagueId, ctx, [.bySeason (season.getD 0)])
  else if pyTruthyOptInt ctx.gameId then
    (gameKeyByGameId (ctx.gameId.getD 0) ++ ".l." ++ ctx.leagueId, ctx,
     [.byGameId (ctx.gameId.getD 0)])
  else
    (currentGameKey ++ ".l." ++ ctx.leagueId, ctx, [.currentGame])

/-- `YahooFantasySportsQuery.get_user_leagues_by_game_key` (lines
862-867 of `query.py`), with the underlying `query` call's yield
abstracted as the input: `leagues if isinstance(leagues, list) else
[leagues]`. -/
def get_user_leagues_by_game_key (leagues : YJson) : List YJson :=
  match leagues with
  | .arr xs => xs
  | v => [v]

/-- `isinstance(v, list)` packaged for claim statements. -/
def YJson.isListVal (v : YJson) : Bool := v.isList

/-- Outcome of one `self.query(...)` call as seen by
`get_league_players`: either the extracted player data or a
`YahooFantasySportsDataNotFound` with its payload, url and message.
The oracle abstracts the whole `query` pipeline per (start, count)
window. -/
inductive QOutcome where
  | ok (data : YJson)
  | notFound (payload : Option (List PathKey)) (url : String) (msg : String)

/-- One entry of the `player_retrieval_failures` records logged by the
partial-batch fallback: index, URL and message of the failed item. -/
structure PlayersFailure where
  failedIndex : Nat
  failedUrl : String
  failedMessage : String
deriving DecidableEq, Repr

/-- Result of a `get_league_players` call: the returned player list (or
the propagated exception), the (start, count) windows queried, and the
per-item failure records logged by fallbacks. -/
structure PlayersOut where
  res : Except PyErr (List YJson)
  queries : List (Nat × Nat)
  failuresLogged : List PlayersFailure

/-- `x if isinstance(x, list) else [x]`. -/
def pyAsList : YJson → List YJson
  | .arr xs => xs
  | v => [v]

/-- Python truthiness of `player_count_limit` (`None` and `0` falsy). -/
def pyTruthyOptNat : Option Nat → Bool
  | none => false
  | some n => n != 0

/-- Python truthiness of `yfpy_err.payload` (the `data_key_list`, truthy
iff present and non-empty). -/
def payloadTruthy : Option (List PathKey) → Bool
  | none => false
  | some l => !l.isEmpty

/-- The `get_league_players` loop in retry mode (`is_retry=True`, lines
1339-1413 of `query.py`): windows of 1 player, and a
`YahooFantasySportsDataNotFound` is re-raised instead of being handled
(the fallback branch is guarded by `if not is_retry`, so it is
unreachable here, which is why this mode needs no mutual recursion with
the fallback).  `fuel` bounds the number of loop iterations of the
source's `while not all_players_retrieved` loop; `none` means the bound
was hit before the loop finished. -/
def getLeaguePlayersRetry (oracle : Nat → Nat → QOutcome) :
    (fuel : Nat) → (limit : Option Nat) → (count : Nat) →
    (acc : List YJson) → (qs : List (Nat × Nat)) → Option PlayersOut
  | 0, _, _, _, _ => none
  | fuel + 1, limit, count, acc, qs =>
      let qs1 := qs ++ [(count, 1)]
      match oracle count 1 with
      | .ok data =>
          let players := pyAsList data
          let n := players.length
          if pyTruthyOptNat limit then
            if count + n < limit.getD 0 then
              getLeaguePlayersRetry oracle fuel limit (count + n) (acc ++ players) qs1
            else some ⟨.ok (acc ++ players.take (limit.getD 0 - count)), qs1, []⟩
          else getLeaguePlayersRetry oracle fuel limit (count + n) (acc ++ players) qs1
      | .notFound payload u m => some ⟨.error (.dataNotFound payload u m), qs1, []⟩

/-- Accumulated state of the per-item fallback loop (`for i in
range(25)`, lines 1385-1403 of `query.py`): final
`league_player_count`, collected successes, per-item failure records,
windows queried, and — when an exception other than
`YahooFantasySportsDataNotFound` escaped an item retrieval — the
exception that aborts the whole call. -/
structure FbAcc where
  count : Nat
  successes : List YJson
  failures : List PlayersFailure
  queries : List (Nat × Nat)
  raised : Option PyErr

/-- The per-item fallback loop: each of the `k` remaining items is
retrieved individually via a nested `get_league_players` call with
`player_count_limit = count + 1`, `player_count_start = count`,
`is_retry=True`; successes are collected, `DataNotFound` failures are
recorded as (index, url, message), and `league_player_count` advances by
one either way. -/
def playersFallbackLoop (oracle : Nat → Nat → QOutcome) (fuel : Nat) :
    (k : Nat) → (c : Nat) → Option FbAcc
  | 0, c => some ⟨c, [], [], [], none⟩
  | k + 1, c =>
      match getLeaguePlayersRetry oracle fuel (some (c + 1)) c [] [] with
      | none => none
      | some out =>
          match out.res with
          | .ok pd =>
              match playersFallbackLoop oracle fuel k (c + 1) with
              | none => none
              | some a => some ⟨a.count, pd ++ a.successes, a.failures,
                                out.queries ++ a.queries, a.raised⟩
          | .error (.dataNotFound _ u m) =>
              match playersFallbackLoop oracle fuel k (c + 1) with
              | none => none
              | some a => some ⟨a.count, a.successes, ⟨c, u, m⟩ :: a.failures,
                                out.queries ++ a.queries, a.raised⟩
          | .error e => some ⟨c, [], [], out.queries, some e⟩

/-- The `get_league_players` loop in normal mode (`is_retry=False`,
lines 1339-1413 of `query.py`): windows of 25 players; a
`YahooFantasySportsDataNotFound` whose payload is truthy ends the loop
(natural end of the collection), one without payload triggers the
per-item fallback over the 25 items of the failed window, after which
pagination continues. -/
def getLeaguePlayersMain (oracle : Nat → Nat → QOutcome) :
    (fuel : Nat) → (limit : Option Nat) → (count : Nat) → (acc : List YJson) →
    (qs : List (Nat × Nat)) → (fl : List PlayersFailure) → Option PlayersOut
  | 0, _, _, _, _, _ => none
  | fuel + 1, limit, count, acc, qs, fl =>
      let qs1 := qs ++ [(count, 25)]
      match oracle count 25 with
      | .ok data =>
          let players := pyAsList data
          let n := players.length
          if pyTruthyOptNat limit then
            if count + n < limit.getD 0 then
              getLeaguePlayersMain oracle fuel limit (count + n) (acc ++ players) qs1 fl
            else some ⟨.ok (acc ++ players.take (limit.getD 0 - count)), qs1, fl⟩
          else getLeaguePlayersMain oracle fuel limit (count + n) (acc ++ players) qs1 fl
      | .notFound payload _ _ =>
          if payloadTruthy payload then some ⟨.ok acc, qs1, fl⟩
          else
            match playersFallbackLoop oracle fuel 25 count with
            | none => none
            | some a =>
                match a.raised with
                | some e => some ⟨.error e, qs1 ++ a.queries, fl⟩
                | none =>
                    getLeaguePlayersMain oracle fuel limit a.count (acc ++ a.successes)
                      (qs1 ++ a.queries) (fl ++ a.failures)

/-- `YahooFantasySportsQuery.get_league_players` (lines 1339-1413 of
`query.py`), dispatching on `is_retry`.  The two modes are the source's
single loop specialized to the two values of `is_retry`; they agree with
the source because the fallback branch is guarded by `if not is_retry`
and `is_retry` never changes within a call. -/
def get_league_players (oracle : Nat → Nat → QOutcome) (fuel : Nat)
    (playerCountLimit : Option Nat) (playerCountStart : Nat) (isRetry : Bool) :
    Option PlayersOut :=
  if isRetry then getLeaguePlayersRetry oracle fuel playerCountLimit playerCountStart [] []
  else getLeaguePlayersMain oracle fuel playerCountLimit playerCountStart [] [] []

/-- The event trace `get_response` produces on a stream of consecutive
plain HTTP errors with budget `r` and initial backoff `b`: the initial
fetch, then `r` rounds of a `0.3 * (b + attempt)` sleep followed by the
identical re-fetch. -/
def retryTrace (url : String) : (backoff : Nat) → (r : Nat) → List Ev
  | _, 0 => [.fetch url]
  | b, r + 1 => .fetch url :: .sleep (b + 1) :: retryTrace url (b + 1) r

/-- Number of fetch events in a trace. -/
def countFetches (evs : List Ev) : Nat :=
  evs.countP fun e => match e with | .fetch _ => true | _ => false

/-- Expected successes of a per-item fallback over `k` items starting at
index `c`: each item whose one-player window succeeds contributes the
first returned player. -/
def fbSucc (oracle : Nat → Nat → QOutcome) : (c : Nat) → (k : Nat) → List YJson
  | _, 0 => []
  | c, k + 1 =>
      (match oracle c 1 with
       | .ok d => (pyAsList d).take 1
       | .notFound _ _ _ => []) ++ fbSucc oracle (c + 1) k

/-- Expected failure records of a per-item fallback over `k` items
starting at index `c`: each item whose one-player window raises
`DataNotFound` contributes an (index, url, message) record. -/
def fbFails (oracle : Nat → Nat → QOutcome) : (c : Nat) → (k : Nat) → List PlayersFailure
  | _, 0 => []
  | c, k + 1 =>
      (match oracle c 1 with
       | .ok _ => []
       | .notFound _ u m => [⟨c, u, m⟩]) ++ fbFails oracle (c + 1) k

/-- A query oracle whose first 25-player window raises `DataNotFound`
WITH a key-path payload (the shape `query` produces when the extraction
comes up empty, i.e. the collection has no further items). -/
def limitedWindowOracle : Nat → Nat → QOutcome :=
  fun s c =>
    if s == 0 && c == 25 then
      .notFound (some [.str "league", .str "players"]) "u0" "m0"
    else .ok (.arr [])

/-- A query oracle for the fallback scenario: the first 25-player window
fails with a payload-less `DataNotFound` (an envelope-level failure),
the individual one-player retrievals succeed at even indices and fail
`DataNotFound` at odd indices, and the following 25-player window ends
the collection (payload present). -/
def mixedPlayersOracle : Nat → Nat → QOutcome :=
  fun s c =>
    if c == 25 then
      if s == 0 then .notFound none "uw" "window error"
      else .notFound (some [.str "league", .str "players"]) "ue" "end of players"
    else
      if s % 2 == 0 then .ok (.arr [.obj [("player", .num (Int.ofNat s))]])
      else .notFound (some [.str "league", .str "players"]) ("item-" ++ Nat.repr s) "item missing"

/-- A response stream whose first response is an unauthorized 401 (with
a decodable body carrying no error payload) and whose later responses
succeed with a truthy envelope. -/
def authRetryStream : Nat → HttpResp :=
  fun i =>
    if i == 0 then ⟨401, some (.obj []), "u0"⟩
    else ⟨200, some (.obj [("fantasy_content", .obj [("g", .num 1)])]), "u1"⟩

/-- A response stream delivering a teams collection (a list of
single-key `team` wrappers under the plural key `teams`). -/
def teamsStream : Nat → HttpResp :=
  fun _ =>
    ⟨200, some (.obj [("fantasy_content", .obj [("teams", .arr
        [.obj [("team", .obj [("team_id", .str "1")])],
         .obj [("team", .obj [("team_id", .str "2")])],
         .obj [("team", .obj [("team_id", .str "3")])]])])]), "ut"⟩

/-- A response stream delivering sibling `team_points` /
`team_projected_points` mappings, declared in the opposite of the
requested order. -/
def dualStream : Nat → HttpResp :=
  fun _ =>
    ⟨200, some (.obj [("fantasy_content", .obj [("team", .arr
        [.obj [("team_projected_points", .obj [("total", .str "78.85")])],
         .obj [("team_points", .obj [("total", .str "95.06")])]])])]), "ud"⟩

/-! ## General lemmas about the embedding -/

/-- Drilling over a concatenated key path is sequential composition. -/
theorem drill_append (raw : YJson) (p q : List PathKey) :
    drill raw (p ++ q) =
      match drill raw p with
      | .ok r => drill r q
      | .error e => .error e := by
  induction p generalizing raw with
  | nil => simp [drill]
  | cons k rest ih =>
      simp only [List.cons_append, drill]
      cases drillStep raw k with
      | ok r => exact ih r
      | error e => rfl

/-- `getResponseTail` only decides the outcome: trace, retry state and
stream position pass through unchanged. -/
theorem getResponseTail_frame (rjson : YJson) (resp : HttpResp) (fcField : String)
    (evs : List Ev) (retries backoff next : Nat) :
    (getResponseTail rjson resp fcField evs retries backoff next).evs = evs ∧
    (getResponseTail rjson resp fcField evs retries backoff next).retries = retries ∧
    (getResponseTail rjson resp fcField evs retries backoff next).backoff = backoff ∧
    (getResponseTail rjson resp fcField evs retries backoff next).next = next := by
  unfold getResponseTail
  cases pyGet rjson fcField with
  | error e => exact ⟨rfl, rfl, rfl, rfl⟩
  | ok raw =>
      by_cases h : raw.truthy = true <;> simp [h]

/-- A clean 200 response whose body carries a truthy envelope field
makes `get_response` succeed on the first fetch, leaving the retry state
untouched. -/
theorem getResponse_first_ok (fetch : Nat → HttpResp) (fc url ru : String)
    (bf : List (String × YJson)) (raw0 : YJson) (retries backoff idx : Nat)
    (hresp : fetch idx = ⟨200, some (.obj bf), ru⟩)
    (henv : objGet bf fc = some raw0) (htr : raw0.truthy = true) :
    getResponse fetch fc url retries backoff idx =
      ⟨.ok ⟨200, some (.obj bf), ru⟩, [.fetch url], retries, backoff, idx + 1⟩ := by
  rw [getResponse]
  simp [hresp, getResponseTail, pyGet, henv, htr]

/-! ## C10: offline mode -/

/-- C10: when the query object is constructed with `offline=True`, every
call to `query` performs no fetch (empty event trace) and returns `None`
(modelled `.ok none`) instead of raising, for all values of `url`,
`data_key_list`, `data_type_class` and `sort_function`. -/
theorem claim10_offline_returns_none (ctx : QueryCtx) (fetch : Nat → HttpResp)
    (url : String) (dataKeyList : List PathKey) (dataTypeClass : Option (YJson → YJson))
    (sortKey : Option (YJson → Int)) (hoff : ctx.offline = true) :
    query ctx fetch url dataKeyList dataTypeClass sortKey = ⟨.ok none, [], []⟩ := by
  simp [query, hoff]

/-- Witness for C10 at a concrete offline context and arbitrary-looking
arguments. -/
theorem claim10_offline_returns_none_witness :
    (⟨true, false, "fantasy_content", 3, 0⟩ : QueryCtx).offline = true ∧
    query ⟨true, false, "fantasy_content", 3, 0⟩ (fun _ => ⟨500, none, "u"⟩) "u"
        [.str "league", .str "players"] none none = ⟨.ok none, [], []⟩ :=
  ⟨rfl, claim10_offline_returns_none _ _ _ _ _ _ rfl⟩

/-! ## C9: get_user_leagues_by_game_key always returns a list -/

/-- C9: when the underlying query yields a single non-list league
object, `get_user_leagues_by_game_key` wraps it in a one-element list,
so the caller never receives a bare League (and a list yield is returned
as-is). -/
theorem claim9_user_leagues_always_list (v : YJson) (h : v.isListVal = false) :
    get_user_leagues_by_game_key v = [v] := by
  cases v <;> simp_all [get_user_leagues_by_game_key, YJson.isListVal, YJson.isList]

/-- Witness for C9 at a concrete single-league (non-list) query yield. -/
theorem claim9_user_leagues_always_list_witness :
    (YJson.obj [("league_key", .str "380.l.169896")]).isListVal = false ∧
    get_user_leagues_by_game_key (.obj [("league_key", .str "380.l.169896")]) =
      [.obj [("league_key", .str "380.l.169896")]] :=
  ⟨rfl, claim9_user_leagues_always_list _ rfl⟩

/-! ## C5: rate-limit status 999 fails immediately -/

/-- C5: a fetch returning Yahoo's rate-limit status 999 makes
`get_response` fail immediately with an `HTTPError`: exactly one fetch
event, no sleep, no re-authentication, and the retry budget and backoff
state are left untouched. -/
theorem claim5_rate_limit_immediate (fetch : Nat → HttpResp) (fc url : String)
    (retries backoff idx : Nat) (h999 : (fetch idx).status = 999) :
    getResponse fetch fc url retries backoff idx =
      ⟨.error (.httpError 999), [.fetch url], retries, backoff, idx + 1⟩ := by
  rw [getResponse]
  simp [h999]

/-- Witness for C5 at a concrete rate-limited fetch stream. -/
theorem claim5_rate_limit_immediate_witness :
    ((fun _ => (⟨999, none, "u"⟩ : HttpResp)) 0).status = 999 ∧
    getResponse (fun _ => ⟨999, none, "u"⟩) "fantasy_content" "u" 3 0 0 =
      ⟨.error (.httpError 999), [.fetch "u"], 3, 0, 1⟩ :=
  ⟨rfl, claim5_rate_limit_immediate _ _ _ _ _ _ rfl⟩

/-! ## C8: the league-key cache is never written by get_league_key -/

/-- C8 counterexample: with no cached league key, `get_league_key`
resolves the key (the result is the resolved `331.l.729259`) but does
NOT store it on the query context — the cache is still `none`
afterwards, and a subsequent call re-resolves (its event list shows the
season resolver running again) instead of reading a cached value. -/
theorem claim8_counterexample :
    (get_league_key ⟨none, "729259", none⟩ (some 2021) (fun _ => "331")
        (fun _ => "331") "406").1 = "331.l.729259" ∧
    (get_league_key ⟨none, "729259", none⟩ (some 2021) (fun _ => "331")
        (fun _ => "331") "406").2.1.leagueKey = none ∧
    (get_league_key ((get_league_key ⟨none, "729259", none⟩ (some 2021) (fun _ => "331")
        (fun _ => "331") "406").2.1) (some 2021) (fun _ => "331")
        (fun _ => "331") "406").2.2 = [.bySeason 2021] :=
  ⟨rfl, rfl, rfl⟩

/-- C8 amended: the cached league key is read-if-present only — when
`self.league_key` is set (truthy) `get_league_key` returns it without
running any resolver, and in every case the query context is returned
unchanged: the method never stores a resolved key, so subsequent calls
re-resolve. -/
theorem claim8_league_key_read_only (ctx : LeagueKeyCtx) (season : Option Int)
    (gameKeyBySeason gameKeyByGameId : Int → String) (currentGameKey : String) :
    (get_league_key ctx season gameKeyBySeason gameKeyByGameId currentGameKey).2.1 = ctx ∧
    (pyTruthyOptStr ctx.leagueKey = true →
      (get_league_key ctx season gameKeyBySeason gameKeyByGameId currentGameKey).1 =
          ctx.leagueKey.getD "" ∧
      (get_league_key ctx season gameKeyBySeason gameKeyByGameId currentGameKey).2.2 = []) := by
  constructor
  · unfold get_league_key
    split
    · rfl
    · split
      · rfl
      · split <;> rfl
  · intro hcached
    unfold get_league_key
    simp [hcached]

/-- Witness for C8 amended at a concrete context with a cached key. -/
theorem claim8_league_key_read_only_witness :
    pyTruthyOptStr (⟨some "331.l.729259", "729259", some 331⟩ : LeagueKeyCtx).leagueKey = true ∧
    (get_league_key ⟨some "331.l.729259", "729259", some 331⟩ none (fun _ => "406")
        (fun _ => "406") "406").2.1 = ⟨some "331.l.729259", "729259", some 331⟩ ∧
    (get_league_key ⟨some "331.l.729259", "729259", some 331⟩ none (fun _ => "406")
        (fun _ => "406") "406").1 = "331.l.729259" ∧
    (get_league_key ⟨some "331.l.729259", "729259", some 331⟩ none (fun _ => "406")
        (fun _ => "406") "406").2.2 = [] := by
  have h := claim8_league_key_read_only ⟨some "331.l.729259", "729259", some 331⟩ none
    (fun _ => "406") (fun _ => "406") "406"
  exact ⟨rfl, h.1, (h.2 rfl).1, (h.2 rfl).2⟩

/-! ## C3: where DataNotFound is and is not raised -/

/-- C3 counterexample: a key-path component absent in the MIDDLE of the
path does not produce `YahooFantasySportsDataNotFound` — with response
body `\x7b"fantasy_content": \x7b"x": 1\x7d\x7d` and path `["a", "b"]`, the
miss on `"a"` yields `None` and the next component calls `.get` on
`None`, so the call fails with `AttributeError` instead. -/
theorem claim3_counterexample :
    (query ⟨false, false, "fantasy_content", 3, 0⟩
        (fun _ => ⟨200, some (.obj [("fantasy_content", .obj [("x", .num 1)])]), "u1"⟩)
        "u" [.str "a", .str "b"] none none).res = .error .attributeError ∧
    ∀ p u m, (query ⟨false, false, "fantasy_content", 3, 0⟩
        (fun _ => ⟨200, some (.obj [("fantasy_content", .obj [("x", .num 1)])]), "u1"⟩)
        "u" [.str "a", .str "b"] none none).res ≠ .error (.dataNotFound p u m) := by
  refine ⟨rfl, ?_⟩
  intro p u m h
  have h0 : (query ⟨false, false, "fantasy_content", 3, 0⟩
      (fun _ => ⟨200, some (.obj [("fantasy_content", .obj [("x", .num 1)])]), "u1"⟩)
      "u" [.str "a", .str "b"] none none).res = Except.error PyErr.attributeError := rfl
  rw [h0] at h
  exact PyErr.noConfusion (Except.error.inj h)

/-- C3 amended: the data-not-found guarantee holds only at the END of
the path — if every component before the last resolves (to a mapping)
and the LAST component is absent there, `query` raises
`YahooFantasySportsDataNotFound` carrying the key-path being sought and
the source URL; a component absent earlier in the path instead surfaces
as an `AttributeError`/`TypeError`/`KeyError` from drilling into the
missing value. -/
theorem claim3_last_component_not_found (fetch : Nat → HttpResp) (fc url ru : String)
    (bf fs : List (String × YJson)) (raw0 : YJson) (pre : List PathKey) (k : String)
    (aj : Bool) (r b : Nat) (dtc : Option (YJson → YJson)) (sk : Option (YJson → Int))
    (hresp : fetch 0 = ⟨200, some (.obj bf), ru⟩)
    (henv : objGet bf fc = some raw0) (htr : raw0.truthy = true)
    (hdrill : drill raw0 pre = .ok (.obj fs))
    (hmiss : objGet fs k = none) :
    (query ⟨false, aj, fc, r, b⟩ fetch url (pre ++ [.str k]) dtc sk).res =
      .error (.dataNotFound (some (pre ++ [.str k])) ru (extractFailMsg (pre ++ [.str k]))) := by
  simp [query, getResponse_first_ok fetch fc url ru bf raw0 r b 0 hresp henv htr,
    pyGet, henv, drill_append, hdrill, drill, drillStep, hmiss, YJson.truthy]

/-- Witness for C3 amended: path `["league", "players"]` over a body
whose league mapping has no `"players"` key. -/
theorem claim3_last_component_not_found_witness :
    drill (.obj [("league", .obj [("name", .str "x")])]) [.str "league"] =
      .ok (.obj [("name", .str "x")]) ∧
    objGet [("name", YJson.str "x")] "players" = none ∧
    (query ⟨false, false, "fantasy_content", 3, 0⟩
        (fun _ => ⟨200, some (.obj [("fantasy_content",
            .obj [("league", .obj [("name", .str "x")])])]), "u9"⟩)
        "u" [.str "league", .str "players"] none none).res =
      .error (.dataNotFound (some [.str "league", .str "players"]) "u9"
        (extractFailMsg [.str "league", .str "players"])) := by
  refine ⟨rfl, rfl, ?_⟩
  exact claim3_last_component_not_found _ _ _ _ _ _ _ [.str "league"] "players" _ _ _ _ _
    rfl rfl rfl rfl rfl

/-! ## C4: retry budget exhaustion -/

/-- C4 amended: on a stream of consecutive plain HTTP-error responses
(non-2xx, not 999, not 401, decodable body without an error payload),
`get_response` with budget `r` and initial backoff `b` issues the
initial fetch plus `r` retries — failing fatally only after `r + 1`
consecutive error responses, not after `r` — with each retry preceded by
a `0.3 * (b + attempts_so_far)` second sleep, and leaves the instance
state at zero remaining retries and backoff `b + r`. -/
theorem claim4_retry_budget (fetch : Nat → HttpResp) (fc url ru : String) (st : Nat)
    (r b idx : Nat) (hst2 : st / 100 ≠ 2) (hst999 : st ≠ 999) (hst401 : st ≠ 401)
    (hfetch : ∀ i, fetch i = ⟨st, some (.obj []), ru⟩) :
    getResponse fetch fc url r b idx =
      ⟨.error (.httpError st), retryTrace url b r, 0, b + r, idx + r + 1⟩ := by
  have h9 : (st == 999) = false := by simp [hst999]
  have h4 : (st == 401) = false := by simp [hst401]
  have h2 : (st / 100 != 2) = true := by simp [hst2]
  induction r generalizing b idx with
  | zero =>
      rw [getResponse]
      simp [hfetch, h9, h4, h2, pyGet, objGet, YJson.truthy, retryTrace]
  | succ r ih =>
      rw [getResponse]
      simp only [hfetch, h9, h4, h2, Bool.false_eq_true, if_false, if_true, pyGet, objGet,
        Option.getD, YJson.truthy, ih]
      simp [retryTrace]
      omega

/-- Witness for C4 amended with budget 1: two fetches, one sleep. -/
theorem claim4_retry_budget_witness :
    ((500 : Nat) / 100 ≠ 2) ∧ ((500 : Nat) ≠ 999) ∧ ((500 : Nat) ≠ 401) ∧
    getResponse (fun _ => ⟨500, some (.obj []), "ru"⟩) "fantasy_content" "u" 1 0 0 =
      ⟨.error (.httpError 500), retryTrace "u" 0 1, 0, 0 + 1, 0 + 1 + 1⟩ :=
  ⟨by decide, by decide, by decide,
   claim4_retry_budget _ _ _ _ 500 1 0 0 (by decide) (by decide) (by decide) (fun _ => rfl)⟩

/-- C4 counterexample: with the default budget of 3, after exactly 3
consecutive HttpError responses a FOURTH fetch of the identical request
is still attempted — the trace holds 4 fetch events, not 3, so the call
does not fail fatally after `retries` consecutive errors as claimed. -/
theorem claim4_counterexample :
    countFetches (getResponse (fun _ => ⟨500, some (.obj []), "u"⟩)
        "fantasy_content" "u" 3 0 0).evs = 4 ∧
    countFetches (getResponse (fun _ => ⟨500, some (.obj []), "u"⟩)
        "fantasy_content" "u" 3 0 0).evs ≠ 3 :=
  ⟨rfl, by decide⟩

/-! ## C6: unauthorized responses and the retry budget -/

/-- C6 amended: a 401 response triggers the re-authentication side
effect, and the re-fetch of the same request then happens through the
ORDINARY HTTPError retry path — consuming one unit of the retry budget
(the continuation runs with budget `r`, one less than `r + 1`) and one
backoff sleep, rather than being a free implicit re-attempt. -/
theorem claim6_auth_retry_counts (fetch : Nat → HttpResp) (fc url : String)
    (r b idx : Nat) (fs : List (String × YJson))
    (h401 : (fetch idx).status = 401)
    (hbody : (fetch idx).body = some (.obj fs))
    (herr : YJson.truthy ((objGet fs "error").getD .null) = false) :
    (getResponse fetch fc url (r + 1) b idx).evs =
      [.fetch url, .auth, .sleep (b + 1)] ++ (getResponse fetch fc url r (b + 1) (idx + 1)).evs ∧
    (getResponse fetch fc url (r + 1) b idx).retries =
      (getResponse fetch fc url r (b + 1) (idx + 1)).retries ∧
    (getResponse fetch fc url (r + 1) b idx).next =
      (getResponse fetch fc url r (b + 1) (idx + 1)).next := by
  have key : getResponse fetch fc url (r + 1) b idx =
      (match (getResponse fetch fc url r (b + 1) (idx + 1)).res with
       | .error e =>
           ⟨.error e,
            [.fetch url, .auth, .sleep (b + 1)] ++ (getResponse fetch fc url r (b + 1) (idx + 1)).evs,
            (getResponse fetch fc url r (b + 1) (idx + 1)).retries,
            (getResponse fetch fc url r (b + 1) (idx + 1)).backoff,
            (getResponse fetch fc url r (b + 1) (idx + 1)).next⟩
       | .ok resp2 =>
           getResponseTail (.obj fs) resp2 fc
             ([.fetch url, .auth, .sleep (b + 1)] ++ (getResponse fetch fc url r (b + 1) (idx + 1)).evs)
             (getResponse fetch fc url r (b + 1) (idx + 1)).retries
             (getResponse fetch fc url r (b + 1) (idx + 1)).backoff
             (getResponse fetch fc url r (b + 1) (idx + 1)).next) := by
    conv_lhs => rw [getResponse]
    simp [h401, hbody, pyGet, herr]
  rcases hres : (getResponse fetch fc url r (b + 1) (idx + 1)).res with e | resp2
  · rw [key, hres]
    exact ⟨rfl, rfl, rfl⟩
  · rw [key, hres]
    obtain ⟨he, hr, _, hn⟩ := getResponseTail_frame (.obj fs) resp2 fc
      ([.fetch url, .auth, .sleep (b + 1)] ++ (getResponse fetch fc url r (b + 1) (idx + 1)).evs)
      (getResponse fetch fc url r (b + 1) (idx + 1)).retries
      (getResponse fetch fc url r (b + 1) (idx + 1)).backoff
      (getResponse fetch fc url r (b + 1) (idx + 1)).next
    exact ⟨he, hr, hn⟩

/-- Witness for C6 amended on a concrete 401-then-success stream: the
re-authentication runs, the request is re-fetched once, and the budget
drops from 3 to 2. -/
theorem claim6_auth_retry_counts_witness :
    (authRetryStream 0).status = 401 ∧
    (getResponse authRetryStream "fantasy_content" "u" 3 0 0).evs =
      [.fetch "u", .auth, .sleep 1, .fetch "u"] ∧
    (getResponse authRetryStream "fantasy_content" "u" 3 0 0).retries = 2 := by
  have h := claim6_auth_retry_counts authRetryStream "fantasy_content" "u" 2 0 0 [] rfl rfl rfl
  norm_num at h
  refine ⟨rfl, ?_, ?_⟩
  · rw [h.1]; rfl
  · rw [h.2.1]; rfl

/-- C6 counterexample: on a concrete 401-then-success stream with
budget 3, the implicit re-attempt IS counted against the retry budget —
afterwards `self._retries` is 2, not 3, and a backoff sleep occurred. -/
theorem claim6_counterexample :
    (getResponse authRetryStream "fantasy_content" "u" 3 0 0).retries = 2 ∧
    (getResponse authRetryStream "fantasy_content" "u" 3 0 0).retries ≠ 3 ∧
    (Ev.sleep 1) ∈ (getResponse authRetryStream "fantasy_content" "u" 3 0 0).evs :=
  ⟨rfl, by decide, by decide⟩

/-! ## Lemmas about unpacking wrapper sequences -/

/-- Unpacking a single-key wrapper mapping (whose key is not the numeric
pseudo-index "0") unpacks its value in place. -/
theorem unpack_single_wrapper (k : String) (hk : k ≠ "0") (v : YJson) :
    unpack_data (.obj [(k, v)]) = .obj [(k, unpack_data v)] := by
  have h0 : Nat.repr 0 = "0" := rfl
  rw [unpack_data]
  have hr1 : List.range 1 = [0] := rfl
  have hnum : isNumericIndexKeys [(k, v)] = false := by
    simp [isNumericIndexKeys, hr1, h0, hk]
  simp [hnum, unpackFields]

/-- Pointwise unpacking of a sequence of same-key wrappers. -/
theorem unpackList_wrappers (k : String) (hk : k ≠ "0") (vs : List YJson) :
    unpackList (vs.map (fun v => .obj [(k, v)])) =
      vs.map (fun v => .obj [(k, unpack_data v)]) := by
  induction vs with
  | nil => rfl
  | cons v vs ih => simp [unpackList, unpack_single_wrapper k hk, ih]

/-- Unpacking a sequence of single-key wrappers sharing one key keeps
the wrappers (with unpacked insides): the shape the plural-key
flattening step consumes. -/
theorem unpack_wrapper_list (k : String) (hk : k ≠ "0") (vs : List YJson) :
    unpack_data (.arr (vs.map (fun v => .obj [(k, v)]))) =
      .arr (vs.map (fun v => .obj [(k, unpack_data v)])) := by
  rw [unpack_data, unpackList_wrappers k hk]
  have hall : ((vs.map (fun v => .obj [(k, unpack_data v)])).all
      (fun y => (wrapperKey y).isSome)) = true := by
    simp [List.all_map, wrapperKey]
  have hfm : (vs.map (fun v => .obj [(k, unpack_data v)])).filterMap wrapperKey =
      vs.map (fun _ => k) := by
    induction vs with
    | nil => rfl
    | cons v vs ih => simp_all [wrapperKey]
  have hsame : allSameKey ((vs.map (fun v => .obj [(k, unpack_data v)])).filterMap wrapperKey)
      = true := by
    rw [hfm]
    cases vs with
    | nil => rfl
    | cons v vs => simp [allSameKey, List.all_map]
  simp only [hall, hsame, if_true]

/-- Unpacking a two-element sequence of single-key wrappers with
DISTINCT keys merges them into one mapping with exactly both keys. -/
theorem unpack_pair_wrappers (k0 k1 : String) (h0 : k0 ≠ "0") (h1 : k1 ≠ "0")
    (hne : k1 ≠ k0) (v0 v1 : YJson) :
    unpack_data (.arr [.obj [(k0, v0)], .obj [(k1, v1)]]) =
      .obj [(k0, unpack_data v0), (k1, unpack_data v1)] := by
  rw [unpack_data]
  simp [unpackList, unpack_single_wrapper k0 h0, unpack_single_wrapper k1 h1, wrapperKey,
    allSameKey, fieldsOf, hne]

/-- Subscripting every wrapper of a same-key wrapper sequence by that
key recovers the (mapped) values, in order. -/
theorem subscriptEach_wrappers (k : String) (f : YJson → YJson) (vs : List YJson) :
    subscriptEach k (vs.map (fun v => .obj [(k, f v)])) = .ok (vs.map f) := by
  induction vs with
  | nil => rfl
  | cons v vs ih => simp [subscriptEach, pySubscript, objGet, ih]

/-! ## C1: plural-key flattening of wrapper sequences -/

/-- C1: for a call to `query` (with no type cast and no sort) whose
final extracted value is a list of single-key wrapper mappings under the
singular of the last key-path component — a string ending in "s" whose
singular is not the pseudo-index "0" — the returned sequence consists of
the bare inner (unpacked) values, each wrapper replaced by its value
under the singular key, in their original order. -/
theorem claim1_plural_key_unwrap (fetch : Nat → HttpResp) (fc url ru : String)
    (bf : List (String × YJson)) (raw0 : YJson) (pre : List PathKey) (k : String)
    (vs : List YJson) (r b : Nat)
    (hresp : fetch 0 = ⟨200, some (.obj bf), ru⟩)
    (henv : objGet bf fc = some raw0) (htr : raw0.truthy = true)
    (hends : pyEndsWithS k = true)
    (hsing : pyDropLast k ≠ "0")
    (hdrill : drill raw0 (pre ++ [.str k]) =
      .ok (.arr (vs.map (fun v => .obj [(pyDropLast k, v)]))))
    (hne : vs ≠ []) :
    (query ⟨false, false, fc, r, b⟩ fetch url (pre ++ [.str k]) none none).res =
      .ok (some (.arr (vs.map unpack_data))) := by
  simp [query, getResponse_first_ok fetch fc url ru bf raw0 r b 0 hresp henv htr, pyGet, henv,
    hdrill, YJson.truthy, hne, unpack_wrapper_list _ hsing, flattenPlural, List.getLast?_concat,
    hends, subscriptEach_wrappers, YJson.isDict]

/-- Witness for C1 on a concrete three-team collection: the wrappers are
stripped and the bare team mappings come back in order. -/
theorem claim1_plural_key_unwrap_witness :
    pyEndsWithS "teams" = true ∧
    drill (.obj [("teams", .arr
        [.obj [("team", .obj [("team_id", .str "1")])],
         .obj [("team", .obj [("team_id", .str "2")])],
         .obj [("team", .obj [("team_id", .str "3")])]])]) [.str "teams"] =
      .ok (.arr ([.obj [("team_id", YJson.str "1")], .obj [("team_id", YJson.str "2")],
          .obj [("team_id", YJson.str "3")]].map (fun v => .obj [(pyDropLast "teams", v)]))) ∧
    (query ⟨false, false, "fantasy_content", 3, 0⟩ teamsStream "u" [.str "teams"]
        none none).res =
      .ok (some (.arr [.obj [("team_id", .str "1")], .obj [("team_id", .str "2")],
                       .obj [("team_id", .str "3")]])) := by
  refine ⟨rfl, rfl, ?_⟩
  have h := claim1_plural_key_unwrap teamsStream "fantasy_content" "u" "ut" _ _ [] "teams"
      [.obj [("team_id", .str "1")], .obj [("team_id", .str "2")], .obj [("team_id", .str "3")]]
      3 0 rfl rfl rfl rfl (by decide) rfl (by simp)
  exact h.trans rfl

/-! ## C2: dual-key extraction -/

/-- C2: when the key-path ends in the two-element component
`["team_points", "team_projected_points"]` and both sibling keys are
present at the same reformatted index of the list level the rest of the
path reaches, `query` (with no type cast and no sort) returns a mapping
containing exactly both requested keys, each mapped to its unpacked
value — regardless of the order in which the keys appear in the source
(the hypotheses only constrain the reformatted lookups, not the source
order, and the witness uses the reversed order). -/
theorem claim2_dual_key_extraction (fetch : Nat → HttpResp) (fc url ru : String)
    (bf : List (String × YJson)) (raw0 : YJson) (pre : List PathKey)
    (ws : List YJson) (v0 v1 : YJson) (r b : Nat)
    (hresp : fetch 0 = ⟨200, some (.obj bf), ru⟩)
    (henv : objGet bf fc = some raw0) (htr : raw0.truthy = true)
    (hpre : drill raw0 pre = .ok (.arr ws))
    (hv0 : objGet (reformat_json_list ws) "team_points" = some v0)
    (hv1 : objGet (reformat_json_list ws) "team_projected_points" = some v1) :
    (query ⟨false, false, fc, r, b⟩ fetch url
        (pre ++ [.pair "team_points" "team_projected_points"]) none none).res =
      .ok (some (.obj [("team_points", unpack_data v0),
                       ("team_projected_points", unpack_data v1)])) := by
  have hup := unpack_pair_wrappers "team_points" "team_projected_points"
    (by decide) (by decide) (by decide) v0 v1
  simp [query, getResponse_first_ok fetch fc url ru bf raw0 r b 0 hresp henv htr, pyGet, henv,
    drill_append, hpre, drill, drillStep, pySubscript, hv0, hv1, YJson.truthy, hup,
    flattenPlural, YJson.isDict]

/-- Witness for C2 on a concrete response in which
`team_projected_points` is declared BEFORE `team_points`: the result
mapping still holds exactly both requested keys in requested order. -/
theorem claim2_dual_key_extraction_witness :
    objGet (reformat_json_list
        [.obj [("team_projected_points", .obj [("total", .str "78.85")])],
         .obj [("team_points", .obj [("total", .str "95.06")])]]) "team_points" =
      some (.obj [("total", .str "95.06")]) ∧
    (query ⟨false, false, "fantasy_content", 3, 0⟩ dualStream "u"
        [.str "team", .pair "team_points" "team_projected_points"] none none).res =
      .ok (some (.obj [("team_points", .obj [("total", .str "95.06")]),
                       ("team_projected_points", .obj [("total", .str "78.85")])])) := by
  refine ⟨rfl, ?_⟩
  have h := claim2_dual_key_extraction dualStream "fantasy_content" "u" "ud" _ _ [.str "team"]
      [.obj [("team_projected_points", .obj [("total", .str "78.85")])],
       .obj [("team_points", .obj [("total", .str "95.06")])]]
      (.obj [("total", .str "95.06")]) (.obj [("total", .str "78.85")])
      3 0 rfl rfl rfl rfl rfl rfl
  exact h.trans rfl

/-! ## C7: pagination, natural end, and the per-item fallback -/

/-- A well-behaved per-item query outcome: either data whose list form
is non-empty, or a `DataNotFound` (an empty success would make the
source's nested one-player loop spin forever, as §9 of the design notes
warns). -/
def itemOk (oracle : Nat → Nat → QOutcome) (c : Nat) : Prop :=
  (∃ d, oracle c 1 = .ok d ∧ pyAsList d ≠ []) ∨
  (∃ p u m, oracle c 1 = .notFound p u m)

/-- A nested retry-mode call on a successful one-player window returns
exactly the first player of the window. -/
theorem retry_item_ok (oracle : Nat → Nat → QOutcome) (f c : Nat) (d : YJson)
    (hd : oracle c 1 = .ok d) (hne : pyAsList d ≠ []) :
    getLeaguePlayersRetry oracle (f + 1) (some (c + 1)) c [] [] =
      some ⟨.ok ((pyAsList d).take 1), [(c, 1)], []⟩ := by
  have hn : (pyAsList d).length ≠ 0 := by simpa using hne
  have hlt : ¬ (c + (pyAsList d).length < c + 1) := by omega
  have h1 : c + 1 - c = 1 := by omega
  rw [getLeaguePlayersRetry]
  simp [hd, pyTruthyOptNat, hlt, h1]

/-- A nested retry-mode call on a failing one-player window re-raises
the `DataNotFound`. -/
theorem retry_item_nf (oracle : Nat → Nat → QOutcome) (f c : Nat)
    (p : Option (List PathKey)) (u m : String) (h : oracle c 1 = .notFound p u m) :
    getLeaguePlayersRetry oracle (f + 1) (some (c + 1)) c [] [] =
      some ⟨.error (.dataNotFound p u m), [(c, 1)], []⟩ := by
  rw [getLeaguePlayersRetry]
  simp [h]

/-- Characterization of the per-item fallback loop over `k` well-behaved
items starting at `c`: it advances the count by `k`, collects exactly
the successful items' first players, records exactly the failed items as
(index, url, message), queries each item once, and raises nothing. -/
theorem fallback_spec (oracle : Nat → Nat → QOutcome) (f : Nat) :
    ∀ (k c : Nat), (∀ i, i < k → itemOk oracle (c + i)) →
    playersFallbackLoop oracle (f + 1) k c =
      some ⟨c + k, fbSucc oracle c k, fbFails oracle c k,
            (List.range k).map (fun i => (c + i, 1)), none⟩ := by
  intro k
  induction k with
  | zero => intro c _; simp [playersFallbackLoop, fbSucc, fbFails]
  | succ k ih =>
      intro c h
      have h0 : itemOk oracle c := by simpa using h 0 (by omega)
      have hshift : ∀ i, i < k → itemOk oracle (c + 1 + i) := by
        intro i hi
        have hh := h (i + 1) (by omega)
        rwa [show c + (i + 1) = c + 1 + i by omega] at hh
      have hrange : (List.range (k + 1)).map (fun i => (c + i, 1)) =
          (c, 1) :: (List.range k).map (fun i => (c + 1 + i, 1)) := by
        rw [List.range_succ_eq_map]
        simp only [List.map_cons, List.map_map, Nat.add_zero]
        refine congrArg _ (List.map_congr_left ?_)
        intro i _
        simp only [Function.comp_apply]
        congr 1
        omega
      rw [playersFallbackLoop]
      rcases h0 with ⟨d, hd, hne⟩ | ⟨p, u, m, hnf⟩
      · rw [retry_item_ok oracle f c d hd hne, ih (c + 1) hshift]
        simp only [fbSucc, fbFails, hd, hrange]
        refine congrArg _ ?_
        refine FbAcc.mk.injEq _ _ _ _ _ _ _ _ _ _ |>.mpr ?_ |> Eq.symm |> Eq.symm
        exact ⟨by omega, rfl, rfl, rfl, rfl⟩
      · rw [retry_item_nf oracle f c p u m hnf, ih (c + 1) hshift]
        simp only [fbSucc, fbFails, hnf, hrange]
        refine congrArg _ ?_
        refine FbAcc.mk.injEq _ _ _ _ _ _ _ _ _ _ |>.mpr ?_ |> Eq.symm |> Eq.symm
        exact ⟨by omega, rfl, rfl, rfl, rfl⟩

/-- C7 amended: what decides between "natural end of pagination" and
"per-item fallback" on a window's `DataNotFound` is whether the
exception carries a key-path payload — NOT whether `player_count_limit`
is set.  For ANY limit: a payload-less window failure triggers the
fallback, which queries each of the failed window's 25 items
individually (windows of 1), collects the successful items and records
the failed ones as (index, url, message) without aborting the call, and
pagination then continues; a payload-carrying failure on the following
window ends the call normally, returning the collected players. -/
theorem claim7_payload_decides_fallback (oracle : Nat → Nat → QOutcome) (f c : Nat)
    (limit : Option Nat) (u m u2 m2 : String) (pl : List PathKey)
    (h0 : oracle c 25 = .notFound none u m)
    (h1 : ∀ i, i < 25 → itemOk oracle (c + i))
    (h2 : oracle (c + 25) 25 = .notFound (some pl) u2 m2)
    (hpl : pl ≠ []) :
    get_league_players oracle (f + 2) limit c false =
      some ⟨.ok (fbSucc oracle c 25),
            ([(c, 25)] ++ (List.range 25).map (fun i => (c + i, 1)) ++ [(c + 25, 25)]),
            fbFails oracle c 25⟩ := by
  have hf2 : f + 2 = (f + 1) + 1 := rfl
  unfold get_league_players
  rw [if_neg (by simp), hf2, getLeaguePlayersMain]
  rw [h0]
  simp only [payloadTruthy, Bool.false_eq_true, if_false]
  rw [fallback_spec oracle f 25 c h1]
  simp only
  rw [getLeaguePlayersMain]
  rw [show c + 25 + 0 = c + 25 by omega] at h2 ⊢
  rw [h2]
  simp [payloadTruthy, hpl]

/-- Witness for C7 amended on `mixedPlayersOracle`: the payload-less
window failure triggers the fallback even though NO limit is set; 13
items succeed, 12 failures are recorded, the call returns normally. -/
theorem claim7_payload_decides_fallback_witness :
    mixedPlayersOracle 0 25 = .notFound none "uw" "window error" ∧
    get_league_players mixedPlayersOracle 2 none 0 false =
      some ⟨.ok (fbSucc mixedPlayersOracle 0 25),
            ([(0, 25)] ++ (List.range 25).map (fun i => (0 + i, 1)) ++ [(0 + 25, 25)]),
            fbFails mixedPlayersOracle 0 25⟩ ∧
    (fbSucc mixedPlayersOracle 0 25).length = 13 ∧
    (fbFails mixedPlayersOracle 0 25).length = 12 := by
  have h1 : ∀ i, i < 25 → itemOk mixedPlayersOracle (0 + i) := by
    intro i hi
    by_cases hp : i % 2 = 0
    · left
      refine ⟨.arr [.obj [("player", .num (Int.ofNat i))]], ?_, by simp [pyAsList]⟩
      simp [mixedPlayersOracle, hp]
    · right
      have hb : (i % 2 == 0) = false := by simp [hp]
      exact ⟨some [.str "league", .str "players"], "item-" ++ Nat.repr i, "item missing",
        by simp [mixedPlayersOracle, hb]⟩
  refine ⟨rfl, ?_, rfl, rfl⟩
  exact claim7_payload_decides_fallback mixedPlayersOracle 0 0 none "uw" "window error"
    "ue" "end of players" [.str "league", .str "players"] rfl h1 rfl (by simp)

/-- C7 counterexample: with `player_count_limit` SET (here 30), a window
`DataNotFound` that carries a key-path payload still ends pagination as
the natural end — no per-item fallback runs (a single window query, no
failure records, an empty normal result), contradicting the claim that
a set limit makes a window failure trigger the per-item fallback. -/
theorem claim7_counterexample :
    get_league_players limitedWindowOracle 10 (some 30) 0 false =
      some ⟨.ok [], [(0, 25)], []⟩ ∧
    (get_league_players limitedWindowOracle 10 (some 30) 0 false).elim 0
        (fun o => o.queries.length) ≠ 26 ∧
    (get_league_players limitedWindowOracle 10 (some 30) 0 false).elim 0
        (fun o => o.failuresLogged.length) = 0 :=
  ⟨rfl, by decide, rfl⟩
